import Mathlib

/-!
Verification of the Workana scraping bot's core loop and notifier against
its specification.  The definitions below are a shallow embedding of
`src/scrapers/workana_scraper.py` and `src/utils/slack_notifier.py`:

* external effects (the Playwright page, the network) are abstracted into a
  `Site` record that says, for every page number, whether `load_page`
  succeeds and which parsed job fragments `get_job_elements` +
  `parse_job_element_from_html` would yield there (`none` models a fragment
  whose parse raises, which `scrape_page` catches and skips);
* the pagination metadata that `get_total_pages` inspects is an explicit
  `PaginationMeta` value;
* `requests.post` is abstracted into a `postResult : Option Nat` field
  (`none` = the request raised, `some c` = HTTP status `c`), and the
  embedding of each notifier method additionally returns the list of
  webhook payloads it sent, so that "no request is performed" is provable.
-/

/-- One parsed job listing, mirroring the dictionary produced by
`parse_job_element_from_html`.  `none` models a missing key; following
Python truthiness the empty string behaves like a missing value wherever
the source tests `job_data.get(...)`. -/
structure JobData where
  id : Option String := none
  client_name : Option String := none
  title : Option String := none
  url : Option String := none
  budget : Option String := none
  client_country : Option String := none
  client_payment_verified : Bool := false
  deriving Repr, DecidableEq

/-- The guard `if not job_data.get('id'): continue` of `scrape_page`:
a record is usable only if its `id` is present and non-empty. -/
def has_id (j : JobData) : Bool :=
  j.id.getD "" ≠ ""

/-- The composite key of `scrape_page` line 199:
`f"{job_data.get('id')}|{job_data.get('client_name') or ''}"` (only
evaluated on records whose `id` is truthy). -/
def job_key (j : JobData) : String :=
  j.id.getD "" ++ "|" ++ j.client_name.getD ""

/-- The pagination metadata visible to `get_total_pages`:
either the surrounding query raised (`error`), or no pagination element was
found (`noPagination`), or a list of page links, each link's `inner_text`
being `none` when reading it raises. -/
inductive PaginationMeta where
  | error : PaginationMeta
  | noPagination : PaginationMeta
  | links (ls : List (Option String)) : PaginationMeta
  deriving Repr, DecidableEq

/-- Python's `text.strip()` on the character list of a string. -/
def stripChars (s : String) : List Char :=
  ((s.data.dropWhile Char.isWhitespace).reverse.dropWhile Char.isWhitespace).reverse

/-- Python's `int(text)` on an all-digit character list. -/
def digitsToNat (cs : List Char) : Nat :=
  cs.foldl (fun n c => n * 10 + (c.toNat - 48)) 0

/-- One link's contribution in `get_total_pages`: `none` when reading the
text raised, when the stripped text fails `isdigit` (empty or not all
digits), otherwise its integer value. -/
def linkNum? (l : Option String) : Option Nat :=
  l.bind fun t =>
    let cs := stripChars t
    if cs ≠ [] ∧ cs.all Char.isDigit then some (digitsToNat cs) else none

/-- The numeric page links collected by `get_total_pages`: each link whose
text (stripped) passes `isdigit` contributes its integer value. -/
def pageNums (ls : List (Option String)) : List Nat :=
  ls.filterMap linkNum?

/-- `WorkanaScraper.get_total_pages`: 1 when the pagination element, the
page links, or any numeric text is missing or any step raises; otherwise
the maximum numeric link text. -/
def get_total_pages : PaginationMeta → Nat
  | .error => 1
  | .noPagination => 1
  | .links ls =>
    match pageNums ls with
    | [] => 1
    | n :: ns => (n :: ns).foldl max 0

/-- The clamp `if max_pages: total_pages = min(total_pages, max_pages)` of
`scrape` (a `max_pages` of 0 models the falsy `None`/`0`, i.e. no clamp). -/
def clamp_total (total mp : Nat) : Nat :=
  if mp = 0 then total else min total mp

/-- The abstract environment of one run: whether `load_page` succeeds on
each page number, the parse results of the job fragments found on each
page (`none` = that fragment's parse raises and is skipped), and the
pagination metadata read on page 1. -/
structure Site where
  loadOk : Nat → Bool
  fragments : Nat → List (Option JobData)
  meta : PaginationMeta

/-- `WorkanaScraper.scrape_page` (the data part): walk the fragments in
page order, skip parse failures and records without `id`, and on the first
record whose composite key is in `existing` (when stop-on-known is
enabled) stop, keeping only the records appended before it.  Returns
`(jobs, should_stop)` exactly like the source. -/
def scrape_page (stop : Bool) (ex : List String) :
    List (Option JobData) → List JobData × Bool
  | [] => ([], false)
  | none :: rest => scrape_page stop ex rest
  | some j :: rest =>
    if has_id j = false then
      scrape_page stop ex rest
    else if stop = true ∧ job_key j ∈ ex then
      ([], true)
    else
      let r := scrape_page stop ex rest
      (j :: r.1, r.2)

/-- The fragments of a page that survive `scrape_page`'s two guards:
parse succeeded and the record has a usable `id`. -/
def validRecords (frags : List (Option JobData)) : List JobData :=
  (frags.filterMap id).filter fun j => has_id j

/-- The core of `scrape_page` on already-validated records (parse
succeeded, `id` present): used to factor proofs through `validRecords`. -/
def pageCore (stop : Bool) (ex : List String) : List JobData → List JobData × Bool
  | [] => ([], false)
  | j :: rest =>
    if stop = true ∧ job_key j ∈ ex then
      ([], true)
    else
      let r := pageCore stop ex rest
      (j :: r.1, r.2)

/-- The `while page <= total_pages` loop of `WorkanaScraper.scrape`,
with `fuel` the number of pages still allowed (`total_pages - page + 1`):
scrape the current page, extend the accumulator, break on a known job,
break when past the last page, otherwise load the next page and continue
(breaking if that load fails). -/
def scrape_loop (stop : Bool) (ex : List String) (frags : Nat → List (Option JobData))
    (loadOk : Nat → Bool) : Nat → Nat → List JobData
  | _, 0 => []
  | page, rem + 1 =>
    let pr := scrape_page stop ex (frags page)
    if pr.2 then pr.1
    else if rem = 0 then pr.1
    else if loadOk (page + 1) then pr.1 ++ scrape_loop stop ex frags loadOk (page + 1) rem
    else pr.1

/-- `WorkanaScraper.scrape`: load page 1 (returning `[]` on failure), read
the total-page count once, clamp it to `max_pages`, then run the page
loop.  The return value is the bare list of accumulated jobs, exactly as
in the source. -/
def scrape (stop : Bool) (site : Site) (ex : List String) (mp : Nat) : List JobData :=
  if site.loadOk 1 then
    scrape_loop stop ex site.fragments site.loadOk 1
      (clamp_total (get_total_pages site.meta) mp)
  else []

/-- Number of `load_page` calls made by the loop of `scrape` after page 1
(one per `self.load_page(url)` at the bottom of the loop body). -/
def fetch_loop (stop : Bool) (ex : List String) (frags : Nat → List (Option JobData))
    (loadOk : Nat → Bool) : Nat → Nat → Nat
  | _, 0 => 0
  | page, rem + 1 =>
    if (scrape_page stop ex (frags page)).2 then 0
    else if rem = 0 then 0
    else 1 + (if loadOk (page + 1) then fetch_loop stop ex frags loadOk (page + 1) rem else 0)

/-- Total number of `load_page` calls (fetch attempts) performed by one
run of `scrape`: page 1 is always attempted, the rest by the loop. -/
def pages_fetched (stop : Bool) (site : Site) (ex : List String) (mp : Nat) : Nat :=
  1 + (if site.loadOk 1 then
        fetch_loop stop ex site.fragments site.loadOk 1
          (clamp_total (get_total_pages site.meta) mp)
      else 0)

/-! ### Notifier embedding (`src/utils/slack_notifier.py`) -/

/-- A Slack Block Kit block as the notifier builds them: a plain-text
header, a mrkdwn section (`sect`), or a context block. -/
inductive SlackBlock where
  | header (text : String)
  | sect (text : String)
  | context (text : String)
  deriving Repr, DecidableEq

/-- One webhook payload as posted by `send_message`. -/
structure SlackPayload where
  text : String
  blocks : List SlackBlock
  deriving Repr, DecidableEq

/-- The notifier's environment: its webhook URL, the optional translator
(modelled as a function returning `none` when translation raises), the
configured `BASE_URL`, and the outcome `requests.post` would produce
(`none` = the request raises, `some c` = HTTP status `c`). -/
structure NotifierEnv where
  webhook_url : String
  translator : Option (String → Option String)
  base_url : String
  postResult : Option Nat

/-- The bold divider line used between and around job blocks. -/
def dividerText : String := "*───────────────────────────────────*"

/-- `SlackNotifier.send_message`: refuse (returning `false`, posting
nothing) when the webhook URL is empty or malformed; otherwise post the
payload once and succeed exactly on HTTP 200, never raising.  The second
component records the requests performed. -/
def send_message (env : NotifierEnv) (text : String) (blocks : List SlackBlock) :
    Bool × List SlackPayload :=
  if env.webhook_url = "" then (false, [])
  else if env.webhook_url.startsWith "https://hooks.slack.com" = false then (false, [])
  else
    match env.postResult with
    | some 200 => (true, [⟨text, blocks⟩])
    | some _ => (false, [⟨text, blocks⟩])
    | none => (false, [⟨text, blocks⟩])

/-- Python truthiness of an optional string field. -/
def truthy (o : Option String) : Bool :=
  o.getD "" ≠ ""

/-- The title-translation step shared by the formatting methods: keep the
original title when no translator is configured, translation raises, or
the translation is falsy. -/
def translateTitle (tr : Option (String → Option String)) (t : String) : String :=
  match tr with
  | none => t
  | some f =>
    match f t with
    | none => t
    | some t' => if t' = "" then t else t'

/-- `SlackNotifier.format_job_block`: one mrkdwn section holding the
(possibly translated) linked title, the country when present, the payment
verification line, and the budget when present, joined by newlines. -/
def format_job_block (tr : Option (String → Option String)) (base_url : String)
    (job : JobData) : SlackBlock :=
  let title := translateTitle tr (job.title.getD "N/A")
  let url0 := job.url.getD ""
  let url := if url0 ≠ "" ∧ url0.startsWith "http" = false then base_url ++ url0 else url0
  let title_text := if url ≠ "" then "*<" ++ url ++ "|" ++ title ++ ">*" else "*" ++ title ++ "*"
  let parts := [title_text]
    ++ (if truthy job.client_country then ["Country: " ++ job.client_country.getD ""] else [])
    ++ [if job.client_payment_verified then "Payment: ✅ Verified" else "Payment: ❌ Not Verified"]
    ++ (if truthy job.budget then ["Budget: " ++ job.budget.getD ""] else [])
  SlackBlock.sect (String.intercalate "\n" parts)

/-- The `for i, job in enumerate(jobs_to_send, 1)` loop of
`send_new_jobs`: one formatted block per job with a divider between
consecutive jobs (none after the last). -/
def jobBlocksLoop (fmt : JobData → SlackBlock) : List JobData → List SlackBlock
  | [] => []
  | [j] => [fmt j]
  | j :: rest => fmt j :: SlackBlock.sect dividerText :: jobBlocksLoop fmt rest

/-- The block list `send_new_jobs` assembles for a non-empty job list:
header blocks, the first 10 jobs with dividers, a "... and n more" note
when more than 10 jobs were found, and a context footer. -/
def send_new_jobs_blocks (tr : Option (String → Option String)) (base_url : String)
    (new_jobs : List JobData) (total_scraped : Nat) : List SlackBlock :=
  [SlackBlock.header ("🎉 " ++ toString new_jobs.length ++ " New Job"
      ++ (if new_jobs.length ≠ 1 then "s" else "") ++ " Found!"),
   SlackBlock.sect ("🎉 *" ++ toString new_jobs.length ++ " New Job"
      ++ (if new_jobs.length ≠ 1 then "s" else "") ++ " Found on Workana!*"
      ++ (if total_scraped ≠ 0 then "\n(Scraped " ++ toString total_scraped ++ " jobs total)" else "")),
   SlackBlock.sect dividerText]
  ++ jobBlocksLoop (format_job_block tr base_url) (new_jobs.take 10)
  ++ (if 10 < new_jobs.length then
        [SlackBlock.sect ("*... and " ++ toString (new_jobs.length - 10)
          ++ " more new jobs!* Check the database for full list.")]
      else [])
  ++ [SlackBlock.context ("Scraped from Workana.com • Total new jobs: " ++ toString new_jobs.length)]

/-- `SlackNotifier.send_new_jobs`: succeed immediately (posting nothing)
on an empty job list, fail when no webhook URL is configured, otherwise
build the block list and send it via `send_message`. -/
def send_new_jobs (env : NotifierEnv) (new_jobs : List JobData) (total_scraped : Nat) :
    Bool × List SlackPayload :=
  if new_jobs = [] then (true, [])
  else if env.webhook_url = "" then (false, [])
  else
    send_message env ("Found " ++ toString new_jobs.length ++ " new job(s) on Workana")
      (send_new_jobs_blocks env.translator env.base_url new_jobs total_scraped)

/-! ### Concrete data used by witnesses and counterexamples -/

/-- Scenario job with composite key `J1|Acme`. -/
def wJ1 : JobData := { id := some "J1", client_name := some "Acme" }

/-- Scenario job with composite key `J2|Beta`. -/
def wJ2 : JobData := { id := some "J2", client_name := some "Beta" }

/-- Scenario job with composite key `J3|Gamma`. -/
def wJ3 : JobData := { id := some "J3", client_name := some "Gamma" }

/-- One page whose records are `[J2|Beta, J1|Acme, J3|Gamma]`. -/
def w1site : Site where
  loadOk := fun _ => true
  fragments := fun p => if p = 1 then [some wJ2, some wJ1, some wJ3] else []
  meta := .noPagination

/-- Two true pages of three records each, all loads succeeding. -/
def w2site : Site where
  loadOk := fun _ => true
  fragments := fun p =>
    if p = 1 then [some wJ1, some wJ2, some wJ3]
    else if p = 2 then
      [some { id := some "J4" }, some { id := some "J5" }, some { id := some "J6" }]
    else []
  meta := .links [some "2"]

/-- Three reported pages but every load after page 1 fails. -/
def w3site : Site where
  loadOk := fun p => p == 1
  fragments := fun p => if p = 1 then [some wJ2] else [some wJ1]
  meta := .links [some "3"]

/-- A site whose very first page load fails. -/
def w4site : Site where
  loadOk := fun _ => false
  fragments := fun _ => [some wJ1]
  meta := .links [some "3"]

/-- A site whose page-1 fetch reports a known job immediately. -/
def c2siteA : Site where
  loadOk := fun _ => true
  fragments := fun p => if p = 1 then [some wJ1] else []
  meta := .noPagination

/-- A site whose page-1 fetch yields no job elements at all. -/
def c2siteB : Site where
  loadOk := fun _ => true
  fragments := fun _ => []
  meta := .noPagination

/-- A site whose pagination advertises a literal page number `0`. -/
def c6site0 : Site where
  loadOk := fun _ => true
  fragments := fun _ => []
  meta := .links [some "0"]

/-- Pagination links with no numeric text, one job on page 1. -/
def w7site : Site where
  loadOk := fun _ => true
  fragments := fun p => if p = 1 then [some wJ1] else []
  meta := .links [none, some "next"]

/-- A notifier environment with no webhook URL configured. -/
def w9env : NotifierEnv where
  webhook_url := ""
  translator := none
  base_url := ""
  postResult := none

/-- Eleven distinct jobs, to exercise the 10-job cap of `send_new_jobs`. -/
def w10jobs : List JobData :=
  (List.range 11).map fun i => { id := some (toString i), title := some ("T" ++ toString i) }

/-! ### Page-level lemmas -/

/-- `scrape_page` is fully determined by the fragments that survive its
two guards: parse failures and records without `id` have no effect. -/
theorem scrape_page_eq_pageCore (stop : Bool) (ex : List String) :
    ∀ frags, scrape_page stop ex frags = pageCore stop ex (validRecords frags) := by
  intro frags
  induction frags with
  | nil => rfl
  | cons f rest ih =>
    cases f with
    | none => simpa [scrape_page, validRecords] using ih
    | some j =>
      by_cases h : has_id j = false
      · simpa [scrape_page, validRecords, h] using ih
      · have h' : has_id j = true := by simpa using h
        by_cases hc : stop = true ∧ job_key j ∈ ex
        · simp [scrape_page, validRecords, h', h, hc, pageCore]
        · simp [scrape_page, validRecords, h', h, hc, pageCore, ih]

/-- The `should_stop` flag of `pageCore` is set exactly when stopping is
enabled and some record of the page has a known composite key. -/
theorem pageCore_flag (stop : Bool) (ex : List String) :
    ∀ l, (pageCore stop ex l).2 = true ↔ stop = true ∧ ∃ j ∈ l, job_key j ∈ ex := by
  intro l
  induction l with
  | nil => simp [pageCore]
  | cons j rest ih =>
    by_cases hc : stop = true ∧ job_key j ∈ ex
    · simp only [pageCore, if_pos hc]
      simp only [true_iff]
      exact ⟨hc.1, j, by simp, hc.2⟩
    · simp only [pageCore, if_neg hc]
      rw [show (let r := pageCore stop ex rest; (j :: r.1, r.2)).2 = (pageCore stop ex rest).2 from rfl]
      rw [ih]
      constructor
      · rintro ⟨hs, x, hx, hkey⟩
        exact ⟨hs, x, by simp [hx], hkey⟩
      · rintro ⟨hs, x, hx, hkey⟩
        rcases List.mem_cons.mp hx with h | h
        · exact absurd ⟨hs, h ▸ hkey⟩ hc
        · exact ⟨hs, x, h, hkey⟩

/-- When the valid records of a page split as `l₁ ++ k :: l₂` with `k` the
first known record, `pageCore` keeps exactly `l₁` and raises the flag. -/
theorem pageCore_stop_front (ex : List String) (k : JobData) (l₂ : List JobData) :
    ∀ l₁, job_key k ∈ ex → (∀ j ∈ l₁, job_key j ∉ ex) →
      pageCore true ex (l₁ ++ k :: l₂) = (l₁, true) := by
  intro l₁ hk hl
  induction l₁ with
  | nil => simp [pageCore, hk]
  | cons j l ih =>
    have hj : ¬ (true = true ∧ job_key j ∈ ex) := by
      simp [hl j (by simp)]
    have ih' := ih fun x hx => hl x (by simp [hx])
    simp [pageCore, hj, ih', hl j (by simp)]

/-- Every record kept by `pageCore` comes from its input list. -/
theorem pageCore_mem (stop : Bool) (ex : List String) :
    ∀ l j, j ∈ (pageCore stop ex l).1 → j ∈ l := by
  intro l
  induction l with
  | nil => simp [pageCore]
  | cons x rest ih =>
    intro j hj
    by_cases hc : stop = true ∧ job_key x ∈ ex
    · simp [pageCore, hc] at hj
    · simp only [pageCore, if_neg hc] at hj
      rcases List.mem_cons.mp hj with h | h
      · simp [h]
      · simp [ih j h]

/-- With stop-on-known disabled the page flag is never raised. -/
theorem scrape_page_flag_false (ex : List String) (frags : List (Option JobData)) :
    (scrape_page false ex frags).2 = false := by
  rw [scrape_page_eq_pageCore]
  cases hf : (pageCore false ex (validRecords frags)).2
  · rfl
  · have := (pageCore_flag false ex (validRecords frags)).mp hf
    simp at this

/-- Every record kept by `scrape_page` survives both guards: it parsed and
has a non-empty `id`. -/
theorem scrape_page_mem_valid (stop : Bool) (ex : List String)
    (frags : List (Option JobData)) (j : JobData) :
    j ∈ (scrape_page stop ex frags).1 → j ∈ validRecords frags := by
  rw [scrape_page_eq_pageCore]
  exact pageCore_mem stop ex _ j

/-! ### Loop-level lemmas -/

/-- If pages `page .. page+d-1` raise no flag and their successors load,
and page `page+d` raises the flag, the loop returns the jobs of the first
`d` pages followed by the jobs kept on the stopping page, and nothing
else. -/
theorem scrape_loop_stop_at (ex : List String) (frags : Nat → List (Option JobData))
    (loadOk : Nat → Bool) :
    ∀ d page fuel, d < fuel →
      (∀ i, i < d → (scrape_page true ex (frags (page + i))).2 = false) →
      (∀ i, 1 ≤ i → i ≤ d → loadOk (page + i) = true) →
      (scrape_page true ex (frags (page + d))).2 = true →
      scrape_loop true ex frags loadOk page fuel =
        ((List.range' page d).flatMap fun q => (scrape_page true ex (frags q)).1)
          ++ (scrape_page true ex (frags (page + d))).1 := by
  intro d
  induction d with
  | zero =>
    intro page fuel hf hno hload hstop
    cases fuel with
    | zero => exact (Nat.not_lt_zero _ hf).elim
    | succ m =>
      simp only [Nat.add_zero] at hstop
      simp [scrape_loop, hstop]
  | succ d ih =>
    intro page fuel hf hno hload hstop
    cases fuel with
    | zero => exact (Nat.not_lt_zero _ hf).elim
    | succ m =>
      have h0 : (scrape_page true ex (frags (page + 0))).2 = false := hno 0 (Nat.succ_pos d)
      simp only [Nat.add_zero] at h0
      have hrem : ¬ m = 0 := by omega
      have hl1 : loadOk (page + 1) = true := hload 1 le_rfl (by omega)
      have harith : ∀ i : Nat, page + 1 + i = page + (i + 1) := by omega
      have hrec := ih (page + 1) m (by omega)
        (fun i hi => by rw [harith i]; exact hno (i + 1) (by omega))
        (fun i h1 h2 => by rw [harith i]; exact hload (i + 1) (by omega) (by omega))
        (by rw [harith d]; exact hstop)
      simp only [scrape_loop, h0, hrem, hl1]
      rw [hrec, List.range'_succ]
      simp [List.append_assoc, harith d]

/-- If pages `page .. page+d` raise no flag, their predecessors load, and
loading page `page+d+1` fails, the loop returns exactly the jobs of pages
`page .. page+d`. -/
theorem scrape_loop_load_fail (stop : Bool) (ex : List String)
    (frags : Nat → List (Option JobData)) (loadOk : Nat → Bool) :
    ∀ d page fuel, d + 1 < fuel →
      (∀ i, i ≤ d → (scrape_page stop ex (frags (page + i))).2 = false) →
      (∀ i, 1 ≤ i → i ≤ d → loadOk (page + i) = true) →
      loadOk (page + d + 1) = false →
      scrape_loop stop ex frags loadOk page fuel =
        (List.range' page (d + 1)).flatMap fun q => (scrape_page stop ex (frags q)).1 := by
  intro d
  induction d with
  | zero =>
    intro page fuel hf hno hload hfail
    cases fuel with
    | zero => exact (Nat.not_lt_zero _ hf).elim
    | succ m =>
      have h0 : (scrape_page stop ex (frags (page + 0))).2 = false := hno 0 le_rfl
      simp only [Nat.add_zero] at h0
      have hrem : ¬ m = 0 := by omega
      simp only [scrape_loop, h0, hrem, hfail]
      simp [List.range'_succ]
  | succ d ih =>
    intro page fuel hf hno hload hfail
    cases fuel with
    | zero => exact (Nat.not_lt_zero _ hf).elim
    | succ m =>
      have h0 : (scrape_page stop ex (frags (page + 0))).2 = false := hno 0 (by omega)
      simp only [Nat.add_zero] at h0
      have hrem : ¬ m = 0 := by omega
      have hl1 : loadOk (page + 1) = true := hload 1 le_rfl (by omega)
      have harith : ∀ i : Nat, page + 1 + i = page + (i + 1) := by omega
      have hrec := ih (page + 1) m (by omega)
        (fun i hi => by rw [harith i]; exact hno (i + 1) (by omega))
        (fun i h1 h2 => by rw [harith i]; exact hload (i + 1) (by omega) (by omega))
        (by rw [show page + 1 + d + 1 = page + (d + 1) + 1 by omega]; exact hfail)
      simp only [scrape_loop, h0, hrem, hl1]
      rw [hrec]
      simp [List.range'_succ, List.append_assoc]

/-- If no page within the fuel raises the flag and every load succeeds,
the loop scrapes every one of the `fuel` remaining pages. -/
theorem scrape_loop_all (stop : Bool) (ex : List String)
    (frags : Nat → List (Option JobData)) (loadOk : Nat → Bool) :
    ∀ fuel page,
      (∀ i, i < fuel → (scrape_page stop ex (frags (page + i))).2 = false) →
      (∀ q, loadOk q = true) →
      scrape_loop stop ex frags loadOk page fuel =
        (List.range' page fuel).flatMap fun q => (scrape_page stop ex (frags q)).1 := by
  intro fuel
  induction fuel with
  | zero => intro page _ _; simp [scrape_loop]
  | succ m ih =>
    intro page hno hload
    have h0 : (scrape_page stop ex (frags (page + 0))).2 = false := hno 0 (Nat.succ_pos m)
    simp only [Nat.add_zero] at h0
    by_cases hm : m = 0
    · subst hm
      simp only [scrape_loop, h0]
      simp [List.range'_succ]
    · have harith : ∀ i : Nat, page + 1 + i = page + (i + 1) := by omega
      have hrec := ih (page + 1)
        (fun i hi => by rw [harith i]; exact hno (i + 1) (by omega)) hload
      simp only [scrape_loop, h0, hm, hload (page + 1)]
      rw [hrec, List.range'_succ]
      simp

/-- Every record returned by the loop was kept by `scrape_page` on some
page. -/
theorem scrape_loop_mem (stop : Bool) (ex : List String)
    (frags : Nat → List (Option JobData)) (loadOk : Nat → Bool) :
    ∀ fuel page j, j ∈ scrape_loop stop ex frags loadOk page fuel →
      ∃ q, j ∈ (scrape_page stop ex (frags q)).1 := by
  intro fuel
  induction fuel with
  | zero => intro page j hj; simp [scrape_loop] at hj
  | succ m ih =>
    intro page j hj
    simp only [scrape_loop] at hj
    by_cases hs : (scrape_page stop ex (frags page)).2
    · rw [if_pos hs] at hj
      exact ⟨page, hj⟩
    · rw [if_neg hs] at hj
      by_cases hm : m = 0
      · rw [if_pos hm] at hj
        exact ⟨page, hj⟩
      · rw [if_neg hm] at hj
        by_cases hl : loadOk (page + 1)
        · rw [if_pos hl] at hj
          rcases List.mem_append.mp hj with h | h
          · exact ⟨page, h⟩
          · exact ih (page + 1) j h
        · rw [if_neg hl] at hj
          exact ⟨page, hj⟩

/-- The loop attempts at most `fuel - 1` further page loads. -/
theorem fetch_loop_le (stop : Bool) (ex : List String)
    (frags : Nat → List (Option JobData)) (loadOk : Nat → Bool) :
    ∀ fuel page, fetch_loop stop ex frags loadOk page (fuel + 1) ≤ fuel := by
  intro fuel
  induction fuel with
  | zero =>
    intro page
    simp [fetch_loop]
  | succ m ih =>
    intro page
    have hbody : fetch_loop stop ex frags loadOk page (m + 1 + 1) =
        if (scrape_page stop ex (frags page)).2 then 0
        else if m + 1 = 0 then 0
        else 1 + (if loadOk (page + 1) then fetch_loop stop ex frags loadOk (page + 1) (m + 1) else 0) :=
      rfl
    rw [hbody]
    by_cases hs : (scrape_page stop ex (frags page)).2
    · rw [if_pos hs]; omega
    · rw [if_neg hs, if_neg (by omega : ¬ (m + 1 = 0))]
      by_cases hl : loadOk (page + 1)
      · rw [if_pos hl]
        have := ih (page + 1)
        omega
      · rw [if_neg hl]
        omega

/-! ### Auxiliary list lemmas -/

/-- Re-wrapping a record list as successfully parsed fragments recovers it. -/
theorem filterMap_id_map_some (l : List JobData) : (l.map some).filterMap id = l := by
  induction l with
  | nil => rfl
  | cons a t ih => simp [ih]

/-- Filtering on `has_id` is idempotent. -/
theorem filter_has_id_idem (l : List JobData) :
    ((l.filter fun j => has_id j).filter fun j => has_id j) = l.filter fun j => has_id j := by
  induction l with
  | nil => rfl
  | cons a t ih =>
    by_cases h : has_id a = true
    · simp [List.filter_cons, h, ih]
    · simp [List.filter_cons, h, ih]

/-- The job-block loop of `send_new_jobs` is an interspersal of dividers. -/
theorem jobBlocksLoop_eq_intersperse (fmt : JobData → SlackBlock) :
    ∀ l, jobBlocksLoop fmt l = List.intersperse (SlackBlock.sect dividerText) (l.map fmt) := by
  intro l
  induction l with
  | nil => rfl
  | cons j rest ih =>
    cases rest with
    | nil => rfl
    | cons j2 rest2 =>
      simp only [jobBlocksLoop, List.map_cons]
      rw [ih]
      rfl

/-! ### Claim theorems -/

/-- C1: With stop-on-known enabled, if the run reaches page `1 + d` (every
earlier page loaded and raised no stop flag) and that page's valid records
split as `l₁ ++ k :: l₂` where `k` is the first record whose composite key
is in the known set, then the run returns exactly the records of pages
`1 .. d` followed by `l₁`: the known record, every record after it on its
page, and every record of any later page are absent, while the records
parsed before it on that page are retained. -/
theorem scrape_early_stop_mid_page (site : Site) (ex : List String) (mp d : Nat)
    (l₁ l₂ : List JobData) (k : JobData)
    (hd : d < clamp_total (get_total_pages site.meta) mp)
    (hload : ∀ i, i ≤ d → site.loadOk (1 + i) = true)
    (hprev : ∀ i, i < d → (scrape_page true ex (site.fragments (1 + i))).2 = false)
    (hsplit : validRecords (site.fragments (1 + d)) = l₁ ++ k :: l₂)
    (hk : job_key k ∈ ex)
    (hl₁ : ∀ j ∈ l₁, job_key j ∉ ex) :
    scrape true site ex mp =
      ((List.range' 1 d).flatMap fun q => (scrape_page true ex (site.fragments q)).1) ++ l₁ := by
  have hpage : scrape_page true ex (site.fragments (1 + d)) = (l₁, true) := by
    rw [scrape_page_eq_pageCore, hsplit]
    exact pageCore_stop_front ex k l₂ l₁ hk hl₁
  have h1 : site.loadOk 1 = true := by simpa using hload 0 (Nat.zero_le d)
  unfold scrape
  rw [if_pos h1]
  rw [scrape_loop_stop_at ex site.fragments site.loadOk d 1
    (clamp_total (get_total_pages site.meta) mp) hd hprev
    (fun i _ h2 => hload i h2) (by rw [hpage])]
  rw [hpage]

/-- C1 witness: known set `{J1|Acme}`, page 1 yields `[J2|Beta, J1|Acme,
J3|Gamma]`; the run keeps only `J2|Beta`. -/
theorem scrape_early_stop_mid_page_witness :
    scrape true w1site ["J1|Acme"] 5 = [wJ2] := by
  have h := scrape_early_stop_mid_page w1site ["J1|Acme"] 5 0 [wJ2] [wJ3] wJ1
    (by decide) (fun i _ => rfl) (fun i hi => absurd hi (Nat.not_lt_zero i))
    (by decide) (by decide) (by decide)
  simpa using h

/-- C2 counterexample: one run that early-terminated on a known job and
one that terminated naturally return the same value, so the value
returned by `scrape` carries no `found_known_job` flag distinguishing
early termination; the per-page flag exists only inside `scrape_page`. -/
theorem scrape_no_flag_counterexample :
    scrape true c2siteA ["J1|Acme"] 5 = scrape true c2siteB ["J1|Acme"] 5
    ∧ (scrape_page true ["J1|Acme"] (c2siteA.fragments 1)).2 = true
    ∧ (scrape_page true ["J1|Acme"] (c2siteB.fragments 1)).2 = false := by
  decide

/-- C2 (amended): `scrape` returns only the accumulated record list; the
early-termination signal is the page-level `should_stop` flag of
`scrape_page`, which is raised exactly when stop-on-known is enabled and
the page holds a usable record whose composite key is in the known set. -/
theorem scrape_page_stop_flag_spec (stop : Bool) (ex : List String)
    (frags : List (Option JobData)) :
    (scrape_page stop ex frags).2 = true ↔
      stop = true ∧ ∃ j ∈ validRecords frags, job_key j ∈ ex := by
  rw [scrape_page_eq_pageCore]
  exact pageCore_flag stop ex (validRecords frags)

/-- C3: a failed page fetch never raises: when the page-1 load fails the
run returns the empty list, and when the load of page `1 + d + 1` fails
after pages `1 .. 1 + d` were scraped without stopping, the run returns
exactly the records accumulated from those previously fetched pages. -/
theorem scrape_fetch_failure_truncates :
    (∀ stop site ex mp, site.loadOk 1 = false → scrape stop site ex mp = [])
    ∧ (∀ stop (site : Site) ex mp d,
        d + 1 < clamp_total (get_total_pages site.meta) mp →
        (∀ i, i ≤ d → (scrape_page stop ex (site.fragments (1 + i))).2 = false) →
        (∀ i, 1 ≤ i → i ≤ d → site.loadOk (1 + i) = true) →
        site.loadOk 1 = true →
        site.loadOk (1 + d + 1) = false →
        scrape stop site ex mp =
          (List.range' 1 (d + 1)).flatMap fun q => (scrape_page stop ex (site.fragments q)).1) := by
  constructor
  · intro stop site ex mp h
    simp [scrape, h]
  · intro stop site ex mp d hd hno hload h1 hfail
    unfold scrape
    rw [if_pos h1]
    exact scrape_loop_load_fail stop ex site.fragments site.loadOk d 1 _ hd hno hload hfail

/-- C3 witness: a run whose first load fails returns `[]`, and a run
whose page-2 load fails returns exactly the page-1 records. -/
theorem scrape_fetch_failure_truncates_witness :
    scrape false w4site [] 5 = [] ∧ scrape false w3site [] 5 = [wJ2] := by
  constructor
  · exact scrape_fetch_failure_truncates.1 false w4site [] 5 rfl
  · rw [scrape_fetch_failure_truncates.2 false w3site [] 5 0 (by decide)
      (fun i hi => by rcases Nat.le_zero.mp hi with rfl; decide)
      (fun i hi1 hi2 => absurd (Nat.le_trans hi1 hi2) (by decide))
      rfl rfl]
    decide

/-- C4: with stop-on-known disabled and every load succeeding, the run
scrapes every page from 1 up to the smaller of `max_pages` and the
reported total page count, whatever the known-key set contains. -/
theorem scrape_no_stop_all_pages (site : Site) (ex : List String) (mp : Nat)
    (hmp : 0 < mp) (hload : ∀ q, site.loadOk q = true) :
    scrape false site ex mp =
      (List.range' 1 (min (get_total_pages site.meta) mp)).flatMap
        fun q => (scrape_page false ex (site.fragments q)).1 := by
  unfold scrape
  rw [if_pos (hload 1)]
  have hct : clamp_total (get_total_pages site.meta) mp = min (get_total_pages site.meta) mp := by
    unfold clamp_total
    rw [if_neg (by omega)]
  rw [hct]
  exact scrape_loop_all false ex site.fragments site.loadOk _ 1
    (fun i _ => scrape_page_flag_false ex _) hload

/-- C4 witness: two pages of three records each, `max_pages = 5`, a known
set that even contains one of the keys: all six records are returned. -/
theorem scrape_no_stop_all_pages_witness :
    scrape false w2site ["J1|Acme"] 5 =
      [wJ1, wJ2, wJ3, { id := some "J4" }, { id := some "J5" }, { id := some "J6" }] := by
  rw [scrape_no_stop_all_pages w2site ["J1|Acme"] 5 (by decide) (fun q => rfl)]
  decide

/-- C5: a record whose `id` is empty or absent appears in no output of the
run, and `scrape_page` is unchanged when its fragments are replaced by
just the usable ones — such records are dropped before any known-key
membership test and are never counted as new or known. -/
theorem scrape_drops_missing_id :
    (∀ stop (site : Site) ex mp j, j ∈ scrape stop site ex mp → has_id j = true)
    ∧ (∀ stop ex frags,
        scrape_page stop ex frags = scrape_page stop ex ((validRecords frags).map some)) := by
  constructor
  · intro stop site ex mp j hj
    unfold scrape at hj
    by_cases h1 : site.loadOk 1 = true
    · rw [if_pos h1] at hj
      obtain ⟨q, hq⟩ := scrape_loop_mem stop ex site.fragments site.loadOk _ 1 j hj
      have hv := scrape_page_mem_valid stop ex _ j hq
      unfold validRecords at hv
      exact (List.mem_filter.mp hv).2
    · rw [if_neg h1] at hj
      simp at hj
  · intro stop ex frags
    rw [scrape_page_eq_pageCore, scrape_page_eq_pageCore]
    have hvv : validRecords ((validRecords frags).map some) = validRecords frags := by
      show validRecords ((validRecords frags).map some) = validRecords frags
      unfold validRecords
      rw [filterMap_id_map_some, filter_has_id_idem]
    rw [hvv]

/-- C5 witness: the record kept by the early-stop run has a usable id,
and a page with a parse failure and an id-less record behaves like the
page holding only its usable records. -/
theorem scrape_drops_missing_id_witness :
    has_id wJ2 = true
    ∧ scrape_page true ["J1|Acme"] [none, some { id := none, title := some "noid" }, some wJ2]
        = scrape_page true ["J1|Acme"]
            ((validRecords [none, some { id := none, title := some "noid" }, some wJ2]).map some) :=
  ⟨scrape_drops_missing_id.1 true w1site ["J1|Acme"] 5 wJ2 (by decide),
   scrape_drops_missing_id.2 true ["J1|Acme"] [none, some { id := none, title := some "noid" }, some wJ2]⟩

/-- C6 counterexample: a pagination block advertising the literal page
number `0` yields a total-page estimate of 0, yet page 1 has already been
fetched, so the number of pages fetched exceeds the minimum of the
estimate and `max_pages`. -/
theorem pages_fetched_min_counterexample :
    ¬ (pages_fetched true c6site0 [] 5 ≤ min (get_total_pages c6site0.meta) 5) := by
  decide

/-- C6 (amended): the total-page estimate is read once, on page 1 only,
and the number of pages fetched never exceeds the minimum of that
estimate and `max_pages` — except that page 1 itself is always fetched
once (the estimate is read from it), so the bound is
`max 1 (min estimate max_pages)`. -/
theorem pages_fetched_bound (stop : Bool) (site : Site) (ex : List String) (mp : Nat)
    (hmp : 0 < mp) :
    pages_fetched stop site ex mp ≤ max 1 (min (get_total_pages site.meta) mp) := by
  unfold pages_fetched
  have hct : clamp_total (get_total_pages site.meta) mp = min (get_total_pages site.meta) mp := by
    unfold clamp_total
    rw [if_neg (by omega)]
  rw [hct]
  by_cases h1 : site.loadOk 1 = true
  · rw [if_pos h1]
    rcases Nat.eq_zero_or_pos (min (get_total_pages site.meta) mp) with h0 | hpos
    · rw [h0]
      simp [fetch_loop]
    · obtain ⟨m, hm⟩ : ∃ m, min (get_total_pages site.meta) mp = m + 1 :=
        ⟨min (get_total_pages site.meta) mp - 1, by omega⟩
      rw [hm]
      have := fetch_loop_le stop ex site.fragments site.loadOk m 1
      omega
  · rw [if_neg h1]
    omega

/-- C6 witness: two true pages with `max_pages = 5`: the bound holds and
exactly 2 pages are fetched, not 5. -/
theorem pages_fetched_bound_witness :
    (0 < 5 ∧ pages_fetched false w2site [] 5 ≤ max 1 (min (get_total_pages w2site.meta) 5))
    ∧ pages_fetched false w2site [] 5 = 2 :=
  ⟨⟨by decide, pages_fetched_bound false w2site [] 5 (by decide)⟩, by decide⟩

/-- C7: when the pagination element, its page links, or any numeric link
text is missing, or reading them raises, `get_total_pages` returns
exactly 1 rather than failing — and a run whose estimate is 1 scrapes
exactly page 1, whatever `max_pages` is. -/
theorem get_total_pages_missing_meta :
    get_total_pages .error = 1
    ∧ get_total_pages .noPagination = 1
    ∧ get_total_pages (.links []) = 1
    ∧ (∀ ls, pageNums ls = [] → get_total_pages (.links ls) = 1)
    ∧ (∀ stop (site : Site) ex mp, get_total_pages site.meta = 1 →
        site.loadOk 1 = true →
        scrape stop site ex mp = (scrape_page stop ex (site.fragments 1)).1
          ∧ pages_fetched stop site ex mp = 1) := by
  refine ⟨rfl, rfl, rfl, ?_, ?_⟩
  · intro ls h
    have hdef : get_total_pages (.links ls) =
        match pageNums ls with
        | [] => 1
        | n :: ns => (n :: ns).foldl max 0 := rfl
    rw [hdef, h]
  · intro stop site ex mp hmeta h1
    have hct : clamp_total (get_total_pages site.meta) mp = 1 := by
      rw [hmeta]
      unfold clamp_total
      by_cases h : mp = 0
      · rw [if_pos h]
      · rw [if_neg h]
        omega
    constructor
    · unfold scrape
      rw [if_pos h1, hct]
      simp [scrape_loop]
    · unfold pages_fetched
      rw [hct, if_pos h1]
      simp [fetch_loop]

/-- C7 witness: links with no numeric text give estimate 1, and such a
run scrapes exactly its single page. -/
theorem get_total_pages_missing_meta_witness :
    (pageNums [none, some "next"] = [] ∧ get_total_pages (.links [none, some "next"]) = 1)
    ∧ get_total_pages w7site.meta = 1
    ∧ scrape false w7site [] 9 = [wJ1]
    ∧ pages_fetched false w7site [] 9 = 1 := by
  have h := get_total_pages_missing_meta.2.2.2.2 false w7site [] 9 (by decide) rfl
  refine ⟨⟨by decide, get_total_pages_missing_meta.2.2.2.1 [none, some "next"] (by decide)⟩,
    by decide, ?_, h.2⟩
  rw [h.1]
  decide

/-- C8: the stop test of `scrape_page` fires exactly when some usable
record's `id`, followed by `'|'`, followed by its `client_name` (the
empty string when absent) is a member of the known-key set — the
composite identity key is `id ++ "|" ++ client_name`. -/
theorem composite_key_membership (ex : List String) (frags : List (Option JobData)) :
    (scrape_page true ex frags).2 = true ↔
      ∃ j ∈ validRecords frags, (j.id.getD "" ++ "|" ++ j.client_name.getD "") ∈ ex := by
  rw [scrape_page_eq_pageCore, pageCore_flag]
  simp [job_key]

/-- C9: `send_new_jobs` with an empty job list returns `true` and posts
nothing at all; with a non-empty list but no configured webhook URL it
returns `false`. -/
theorem send_new_jobs_empty_or_no_url :
    (∀ env total, send_new_jobs env [] total = (true, []))
    ∧ (∀ env jobs total, jobs ≠ [] → env.webhook_url = "" →
        (send_new_jobs env jobs total).1 = false) := by
  constructor
  · intro env total
    rfl
  · intro env jobs total hj hu
    unfold send_new_jobs
    rw [if_neg hj, if_pos hu]

/-- C9 witness: concrete empty-list and missing-URL calls. -/
theorem send_new_jobs_empty_or_no_url_witness :
    send_new_jobs w9env [] 0 = (true, [])
    ∧ (send_new_jobs w9env [wJ1] 0).1 = false :=
  ⟨send_new_jobs_empty_or_no_url.1 w9env 0,
   send_new_jobs_empty_or_no_url.2 w9env [wJ1] 0 (by decide) rfl⟩

/-- C10: for a non-empty job list the message blocks contain one
formatted job block per job of the first 10 (in input order, separated by
dividers) and, when more than 10 jobs were passed, a note counting the
remaining `length - 10` jobs. -/
theorem send_new_jobs_blocks_take_ten (tr : Option (String → Option String))
    (base_url : String) (total : Nat) (jobs : List JobData) (h : jobs ≠ []) :
    send_new_jobs_blocks tr base_url jobs total =
      [SlackBlock.header ("🎉 " ++ toString jobs.length ++ " New Job"
          ++ (if jobs.length ≠ 1 then "s" else "") ++ " Found!"),
       SlackBlock.sect ("🎉 *" ++ toString jobs.length ++ " New Job"
          ++ (if jobs.length ≠ 1 then "s" else "") ++ " Found on Workana!*"
          ++ (if total ≠ 0 then "\n(Scraped " ++ toString total ++ " jobs total)" else "")),
       SlackBlock.sect dividerText]
      ++ List.intersperse (SlackBlock.sect dividerText)
          ((jobs.take 10).map (format_job_block tr base_url))
      ++ (if 10 < jobs.length then
            [SlackBlock.sect ("*... and " ++ toString (jobs.length - 10)
              ++ " more new jobs!* Check the database for full list.")]
          else [])
      ++ [SlackBlock.context ("Scraped from Workana.com • Total new jobs: " ++ toString jobs.length)] := by
  unfold send_new_jobs_blocks
  rw [jobBlocksLoop_eq_intersperse]

/-- C10 witness: eleven jobs — only the first ten are interspersed and
the note reports one more job. -/
theorem send_new_jobs_blocks_take_ten_witness :
    w10jobs ≠ []
    ∧ send_new_jobs_blocks none "" w10jobs 0 =
      [SlackBlock.header ("🎉 " ++ toString w10jobs.length ++ " New Job"
          ++ (if w10jobs.length ≠ 1 then "s" else "") ++ " Found!"),
       SlackBlock.sect ("🎉 *" ++ toString w10jobs.length ++ " New Job"
          ++ (if w10jobs.length ≠ 1 then "s" else "") ++ " Found on Workana!*"
          ++ (if (0 : Nat) ≠ 0 then "\n(Scraped " ++ toString (0 : Nat) ++ " jobs total)" else "")),
       SlackBlock.sect dividerText]
      ++ List.intersperse (SlackBlock.sect dividerText)
          ((w10jobs.take 10).map (format_job_block none ""))
      ++ (if 10 < w10jobs.length then
            [SlackBlock.sect ("*... and " ++ toString (w10jobs.length - 10)
              ++ " more new jobs!* Check the database for full list.")]
          else [])
      ++ [SlackBlock.context ("Scraped from Workana.com • Total new jobs: " ++ toString w10jobs.length)] :=
  ⟨by decide, send_new_jobs_blocks_take_ten none "" 0 w10jobs (by decide)⟩

-- Sanity checks of the embedding on concrete inputs.
example : get_total_pages (.links [some "2", some "10", none, some "x"]) = 10 := by decide

example : get_total_pages (.links [some "0"]) = 0 := by decide

example :
    scrape_page true ["J1|Acme"]
      [some { id := some "J2", client_name := some "Beta" },
       some { id := some "J1", client_name := some "Acme" },
       some { id := some "J3", client_name := some "Gamma" }] =
    ([{ id := some "J2", client_name := some "Beta" }], true) := by decide
